import Mathlib

/-!
Verification of the water-quality data pipeline and query engine.

The definitions below are a shallow embedding of the Python sources:
  * `Class Project/data/water_quality_db.py` (loading, standardization,
    z-score outlier cleaning, the cleaning report counters), and
  * `Class Project/api/water_quality_api.py` (the `/api/observations`
    pagination logic, the `/api/outliers` endpoint, and the timestamp
    parsing helpers `safe_iso_to_datetime` / `build_mongo_query`).

Modelling conventions:
  * pandas/numpy float arithmetic is modelled over `ℚ` (exact rational
    arithmetic); the sample standard deviation `std = √var` is never
    materialised — every comparison `|v - mean| / std > k` is encoded
    exactly by sign analysis and squaring (see `absZGt`);
  * `NaN` results (e.g. `Series.std()` of a single value with `ddof=1`)
    are modelled as `none`, and comparisons against `NaN`, which are
    `False` in the source runtime, are modelled accordingly;
  * MongoDB documents are association lists from field names to values,
    so that projections (which drop keys) are observable;
  * timestamps stored by the loader are abstracted to microsecond counts
    (`Int`); the string-parsing layer of the API models calendar fields
    explicitly.
-/

namespace WaterQuality

/-- A raw row after per-file normalization and concatenation, before the
required-field drop: each of the six canonical columns may be null
(`none`).  Mirrors one record of `combined_df` in
`_load_and_standardize_data`. -/
structure RawRow where
  timestamp   : Option Int
  latitude    : Option ℚ
  longitude   : Option ℚ
  temperature : Option ℚ
  salinity    : Option ℚ
  odo         : Option ℚ
deriving DecidableEq, Repr

/-- `True` iff the row has all six required fields non-null; the predicate of
`combined_df.dropna(subset=required_cols, how='any')`. -/
def complete (r : RawRow) : Bool :=
  r.timestamp.isSome && r.latitude.isSome && r.longitude.isSome &&
  r.temperature.isSome && r.salinity.isSome && r.odo.isSome

/-- Sort key used by `sort_values('timestamp')`; rows reaching the sort are
complete, so the default is irrelevant there. -/
def tsKey (r : RawRow) : Int := r.timestamp.getD 0

/-- Non-decreasing timestamp order. -/
def tsLe (a b : RawRow) : Prop := tsKey a ≤ tsKey b

instance : DecidableRel tsLe :=
  fun a b => inferInstanceAs (Decidable (tsKey a ≤ tsKey b))

instance : IsTotal RawRow tsLe := ⟨fun a b => Int.le_total (tsKey a) (tsKey b)⟩

instance : IsTrans RawRow tsLe := ⟨fun _ _ _ h1 h2 => le_trans h1 h2⟩

/-- `combined_df.dropna(subset=required_cols, how='any')` in
`_load_and_standardize_data`. -/
def dropIncomplete (raw : List RawRow) : List RawRow := raw.filter complete

/-- The result of `_load_and_standardize_data` after the required-field drop
and the final `sort_values('timestamp')` (modelled by a stable comparison
sort). -/
def sortedRows (raw : List RawRow) : List RawRow :=
  (dropIncomplete raw).insertionSort tsLe

/-- `Series.mean()` over `ℚ`. -/
def mean (l : List ℚ) : ℚ := l.sum / l.length

/-- `Series.std()` (pandas default `ddof=1`), as the sample *variance*;
`none` models the `NaN` produced for fewer than two values.  The standard
deviation itself is `√` of this value and is never needed explicitly. -/
def sampleVar (l : List ℚ) : Option ℚ :=
  if l.length < 2 then none
  else some ((l.map (fun v => (v - mean l) ^ 2)).sum / ((l.length : ℚ) - 1))

/-- The comparison `|v - mean| / std > k` with `std = √var`, for `var > 0`,
encoded exactly over `ℚ`: for `k < 0` the left side (which is `≥ 0`) always
exceeds `k`; for `k ≥ 0` both sides are non-negative and the comparison may
be squared. -/
def absZGt (v m var k : ℚ) : Bool :=
  if k < 0 then true else decide ((v - m) ^ 2 > k ^ 2 * var)

/-- One column's contribution to the cleaning mask of `_clean_outliers`:
the row value's z-score against the column mean/std, compared with the
threshold `3.0`.  `np.where(std == 0, 0.0, |(v - mean)/std|)` makes the
z-score `0` when `std == 0`; a `NaN` std (single row) yields `NaN`
comparisons, which are false. -/
def colFlag (v? : Option ℚ) (m : ℚ) (var? : Option ℚ) : Bool :=
  match v?, var? with
  | some v, some var =>
      if var = 0 then false      -- z-score forced to 0, and 0 > 3 is false
      else absZGt v m var 3
  | _, _ => false

/-- `_clean_outliers`: removes every row whose z-score in any of the three
numeric columns exceeds `3.0`.  Statistics are taken over the input rows
(`filterMap` mirrors pandas skipping nulls in `mean`/`std`). -/
def clean_outliers (rows : List RawRow) : List RawRow :=
  if rows.isEmpty then rows
  else
    let tV := rows.filterMap RawRow.temperature
    let sV := rows.filterMap RawRow.salinity
    let oV := rows.filterMap RawRow.odo
    rows.filter (fun r =>
      !(colFlag r.temperature (mean tV) (sampleVar tV) ||
        colFlag r.salinity (mean sV) (sampleVar sV) ||
        colFlag r.odo (mean oV) (sampleVar oV)))

/-- The stored dataset: load + standardize + required-field drop + sort,
then the one-time z-score cleaning pass. -/
def cleaned (raw : List RawRow) : List RawRow := clean_outliers (sortedRows raw)

/-- The three process-wide reporting counters of `WaterQualityDB`. -/
structure CleanReport where
  original_rows    : Nat
  removed_outliers : Nat
  remaining_rows   : Nat
deriving DecidableEq, Repr

/-- The counters as the source sets them: `original_rows = len(combined_df)`
is captured *before* the required-field drop
(`water_quality_db.py:118`), and `_clean_outliers` sets
`removed_outliers = original_rows - len(df_cleaned)` and
`remaining_rows = len(df_cleaned)` (`water_quality_db.py:154-155`) — but
only when its input frame is non-empty: the early return
`if df.empty: return df` (`water_quality_db.py:127-128`) exits before
those assignments, leaving both counters at their class-default `0`. -/
def reportOf (raw : List RawRow) : CleanReport :=
  { original_rows    := raw.length
    removed_outliers :=
      if (sortedRows raw).isEmpty then 0
      else raw.length - (cleaned raw).length
    remaining_rows   :=
      if (sortedRows raw).isEmpty then 0
      else (cleaned raw).length }

/-! ### The Store query primitives (`/api/observations`) -/

/-- `count_documents(query)`: the number of stored rows matching the filter
predicate. -/
def countDocs (db : List RawRow) (p : RawRow → Bool) : Nat :=
  (db.filter p).length

/-- `find(query).skip(skip).limit(limit).sort('timestamp', 1)` together with
the route-level cap `limit = min(request_limit, 1000)`
(`water_quality_api.py:162,173`): MongoDB applies sort, then skip, then
limit, regardless of the chaining order of the cursor modifiers. -/
def queryDocs (db : List RawRow) (p : RawRow → Bool) (skip limit : Nat) :
    List RawRow :=
  ((((db.filter p).insertionSort tsLe).drop skip).take (min limit 1000))

/-- Outcome of the `/api/observations` route, after filter construction. -/
inductive ObsResult where
  | clientError (msg : String)
  | ok (count : Nat) (items : List RawRow)
deriving DecidableEq, Repr

/-- The pagination-parameter handling of `get_observations`
(`water_quality_api.py:161-181`): `limit` defaults to `100` and is capped by
`min (·) 1000` before the sign check; `skip` defaults to `0`; a negative
value of either is rejected with a 400.  Arguments are modelled
post-`int(...)` parsing (`none` = parameter absent). -/
def get_observations (db : List RawRow) (p : RawRow → Bool)
    (limitArg skipArg : Option Int) : ObsResult :=
  let limit : Int := min (limitArg.getD 100) 1000
  let skip : Int := skipArg.getD 0
  if limit < 0 || skip < 0 then
    .clientError ("Limit and skip must be non-negative.")
  else
    .ok (countDocs db p) (queryDocs db p skip.toNat limit.toNat)

/-! ### The `/api/outliers` endpoint -/

/-- A MongoDB/pandas cell value. -/
inductive PyVal where
  | num (q : ℚ)
  | dt (t : Int)
  | null
deriving DecidableEq, Repr

/-- A stored document: an association list from field names to values, in
stored key order (projections drop keys, which must be observable). -/
abbrev Doc := List (String × PyVal)

/-- The document stored for one cleaned row: all six canonical keys, in the
column order of the cleaned DataFrame (`required_cols`). -/
def docOfRow (r : RawRow) : Doc :=
  [("timestamp",   r.timestamp.elim PyVal.null PyVal.dt),
   ("latitude",    r.latitude.elim PyVal.null PyVal.num),
   ("longitude",   r.longitude.elim PyVal.null PyVal.num),
   ("temperature", r.temperature.elim PyVal.null PyVal.num),
   ("salinity",    r.salinity.elim PyVal.null PyVal.num),
   ("odo",         r.odo.elim PyVal.null PyVal.num)]

/-- The keys kept by the projection
`{"_id": 0, field: 1, "timestamp": 1, "latitude": 1, "longitude": 1}` of
`find_outliers` (`water_quality_api.py:243`). -/
def projKeys (field : String) : List String :=
  ["timestamp", "latitude", "longitude", field]

/-- MongoDB inclusion projection: keeps exactly the projected keys, in
stored key order. -/
def projectDoc (field : String) (d : Doc) : Doc :=
  d.filter (fun kv => kv.1 ∈ projKeys field)

/-- First value stored under a key, if any. -/
def lookupVal (d : Doc) (k : String) : Option PyVal :=
  (d.find? (fun kv => kv.1 = k)).map (·.2)

/-- The numeric value under a key; `none` for a missing key or a null value
(either becomes `NaN` in the DataFrame and is removed by
`dropna(subset=[field])`). -/
def getNum (d : Doc) (k : String) : Option ℚ :=
  match lookupVal d k with
  | some (.num q) => some q
  | _ => none

/-- The valid `field` parameter values of `/api/outliers`. -/
def numericFields : List String := ["temperature", "salinity", "odo"]

/-- `Series.quantile(q)` with pandas' default linear interpolation, over the
sorted values: position `h = (n-1)·q`, `i = ⌊h⌋`, result
`s[i] + (s[i+1] - s[i])·(h - i)` (with `s[i+1]` read as `s[i]` at the top
end, where `h - i = 0`). -/
def quantile (l : List ℚ) (q : ℚ) : ℚ :=
  let s := l.insertionSort (· ≤ ·)
  let h : ℚ := ((s.length : ℚ) - 1) * q
  let i : Nat := h.floor.toNat
  let lo := s.getD i 0
  let hi := s.getD (i + 1) lo
  lo + (hi - lo) * (h - (i : ℚ))

/-- Documents returned by the projected `find` of `find_outliers`. -/
def projectedDocs (db : List RawRow) (field : String) : List Doc :=
  db.map (fun r => projectDoc field (docOfRow r))

/-- The rows surviving `df.dropna(subset=[field])`. -/
def keptDocs (db : List RawRow) (field : String) : List Doc :=
  (projectedDocs db field).filter (fun d => (getNum d field).isSome)

/-- The non-null values of the target field, in row order. -/
def fieldVals (db : List RawRow) (field : String) : List ℚ :=
  (keptDocs db field).filterMap (fun d => getNum d field)

/-- Outcome of the `/api/outliers` route.  `ok outliers count` is the success
payload; `count = none` models the early return
`jsonify({"outliers": []})` (`water_quality_api.py:256`), which carries no
count key.  `serverError` models an uncaught exception reaching Flask (a
500), e.g. `df.dropna(subset=[field])` raising `KeyError` on the columnless
DataFrame built from an empty collection. -/
inductive FOResult where
  | clientError (msg : String)
  | serverError
  | ok (outliers : List Doc) (count : Option Nat)
deriving DecidableEq, Repr

/-- The rows flagged by the z-score branch (`water_quality_api.py:260-265`):
the mask starts all-`False`; only when `std != 0` is it replaced by
`|value - mean|/std > k`.  A `NaN` std (one value, `ddof=1`) passes the
`std != 0` test but yields `NaN` z-scores, whose comparisons are false. -/
def flaggedZscore (rows : List Doc) (field : String) (k : ℚ) : List Doc :=
  let vals := rows.filterMap (fun d => getNum d field)
  match sampleVar vals with
  | none => []             -- NaN std: mask computed but everywhere false
  | some var =>
      if var = 0 then []   -- guarded: mask left all-False, no division
      else rows.filter (fun d =>
        match getNum d field with
        | some v => absZGt v (mean vals) var k
        | none => false)

/-- The rows flagged by the IQR branch (`water_quality_api.py:267-273`). -/
def flaggedIqr (rows : List Doc) (field : String) (k : ℚ) : List Doc :=
  let vals := rows.filterMap (fun d => getNum d field)
  let q1 := quantile vals (1/4)
  let q3 := quantile vals (3/4)
  let lo := q1 - k * (q3 - q1)
  let hi := q3 + k * (q3 - q1)
  rows.filter (fun d =>
    match getNum d field with
    | some v => decide (v < lo) || decide (hi < v)
    | none => false)

/-- The `/api/outliers` handler `find_outliers`
(`water_quality_api.py:223-281`), modelled after parameter string parsing
(`kArg = none` means the `k` parameter is absent; a malformed `k` is
rejected earlier and is not modelled).  The order of effects follows the
source: `k` defaulting (which consults `method`), then the field check,
then the projected fetch and `dropna`, then the empty-frame early return,
then the method dispatch. -/
def find_outliers (db : List RawRow) (fieldArg methodArg : Option String)
    (kArg : Option ℚ) : FOResult :=
  let method := methodArg.getD ("iqr")
  let k := kArg.getD (if method = "iqr" then 3/2 else 3)
  match fieldArg with
  | none => .clientError ("Invalid field specified.")
  | some field =>
    if field ∈ numericFields then
      if db.isEmpty then
        -- empty collection: the DataFrame has no columns and
        -- `df.dropna(subset=[field])` raises KeyError, uncaught (500)
        .serverError
      else
        let rows := keptDocs db field
        if rows.isEmpty then .ok [] none
        else if method = "zscore" then
          let flagged := flaggedZscore rows field k
          .ok flagged (some flagged.length)
        else if method = "iqr" then
          let flagged := flaggedIqr rows field k
          .ok flagged (some flagged.length)
        else
          .clientError ("Invalid outlier method. Use \x27iqr\x27 or \x27zscore\x27.")
    else .clientError ("Invalid field specified.")

/-! ### Timestamp bound parsing (`safe_iso_to_datetime`, `build_mongo_query`) -/

/-- A timezone-naive calendar instant with microsecond precision, the type
of a parsed filter bound (`datetime` after `.replace(tzinfo=None)`). -/
structure NaiveDT where
  year   : Nat
  month  : Nat
  day    : Nat
  hour   : Nat
  minute : Nat
  second : Nat
  micro  : Nat
deriving DecidableEq, Repr

/-- A possibly timezone-aware parse result of `datetime.fromisoformat`;
`off` is the UTC offset in minutes when one was given. -/
structure PyDT where
  dt  : NaiveDT
  off : Option Int
deriving DecidableEq, Repr

/-- Numeric value of a decimal digit character. -/
def digitVal (c : Char) : Nat := c.toNat - 48

/-- Value of a digit string, most significant first. -/
def natOfDigits (cs : List Char) : Nat :=
  cs.foldl (fun a c => 10 * a + digitVal c) 0

def isLeapYear (y : Nat) : Bool :=
  y % 4 = 0 && (y % 100 ≠ 0 || y % 400 = 0)

def daysInMonth (y mo : Nat) : Nat :=
  if mo = 2 then (if isLeapYear y then 29 else 28)
  else if mo = 4 || mo = 6 || mo = 9 || mo = 11 then 30
  else 31

/-- The microsecond count read from a fractional-seconds digit string by
CPython: only the first six digits are significant; fewer than six are
scaled up (right zero-padding). -/
def microOfDigits (ds : List Char) : Nat :=
  natOfDigits (ds.take 6) * 10 ^ (6 - min ds.length 6)

/-- Parses the optional fractional-seconds part: on a leading `'.'` at least
one digit must follow; all following digits are consumed and truncated to
microsecond precision; otherwise the input is untouched and the fraction
is zero. -/
def parseFracPart (cs : List Char) : Option (Nat × List Char) :=
  match cs with
  | '.' :: rest =>
      let ds := rest.takeWhile Char.isDigit
      if ds.isEmpty then none
      else some (microOfDigits ds, rest.dropWhile Char.isDigit)
  | _ => some (0, cs)

/-- Parses the optional UTC marker / offset suffix: empty, `Z`, or
`±HH`, `±HHMM`, `±HH:MM` (offset returned in minutes). -/
def parseOffset (cs : List Char) : Option (Option Int) :=
  match cs with
  | [] => some none
  | c :: rest =>
      if c = 'Z' then (if rest = [] then some (some 0) else none)
      else if c = '+' || c = '-' then
        match rest with
        | h1 :: h2 :: rest2 =>
            if h1.isDigit && h2.isDigit then
              let hh := 10 * digitVal h1 + digitVal h2
              let mm? : Option Nat :=
                match rest2 with
                | [] => some 0
                | [m1, m2] =>
                    if m1.isDigit && m2.isDigit then
                      some (10 * digitVal m1 + digitVal m2)
                    else none
                | [':', m1, m2] =>
                    if m1.isDigit && m2.isDigit then
                      some (10 * digitVal m1 + digitVal m2)
                    else none
                | _ => none
              match mm? with
              | none => none
              | some mm =>
                  if hh ≤ 23 && mm ≤ 59 then
                    let total : Int := 60 * hh + mm
                    some (some (if c = '-' then -total else total))
                  else none
            else none
        | _ => none
      else none

/-- Modelled from CPython 3.11+ `datetime.fromisoformat` (the stdlib the
repository runs under), restricted to the shapes a timestamp filter bound
takes: `YYYY-MM-DD`, optionally followed by a single separator character
(any character, per CPython) and a time `HH:MM:SS`, an optional fraction
`.d+` (truncated to six digits, fewer scaled up), and an optional suffix
`Z`/`±HH`/`±HHMM`/`±HH:MM`.  Shorter time forms CPython also accepts
(`HH`, `HH:MM`) are outside the model; no claim exercises them. -/
def fromisoformat (cs : List Char) : Option PyDT :=
  match cs with
  | y1 :: y2 :: y3 :: y4 :: '-' :: o1 :: o2 :: '-' :: d1 :: d2 :: rest =>
      if [y1, y2, y3, y4, o1, o2, d1, d2].all Char.isDigit then
        let y := natOfDigits [y1, y2, y3, y4]
        let mo := natOfDigits [o1, o2]
        let d := natOfDigits [d1, d2]
        if 1 ≤ y && 1 ≤ mo && mo ≤ 12 && 1 ≤ d && d ≤ daysInMonth y mo then
          match rest with
          | [] => some ⟨⟨y, mo, d, 0, 0, 0, 0⟩, none⟩
          | _sep :: h1 :: h2 :: ':' :: m1 :: m2 :: ':' :: s1 :: s2 :: rest2 =>
              if [h1, h2, m1, m2, s1, s2].all Char.isDigit then
                let h := natOfDigits [h1, h2]
                let mi := natOfDigits [m1, m2]
                let s := natOfDigits [s1, s2]
                if h ≤ 23 && mi ≤ 59 && s ≤ 59 then
                  match parseFracPart rest2 with
                  | none => none
                  | some (us, rest3) =>
                      match parseOffset rest3 with
                      | none => none
                      | some off => some ⟨⟨y, mo, d, h, mi, s, us⟩, off⟩
                else none
              else none
          | _ => none
        else none
      else none
  | _ => none

/-- `micro_tz_part.find('+')` split: the prefix before the first `'+'` and
the suffix from it (inclusive). -/
def splitAtFirstPlus (cs : List Char) : List Char × List Char :=
  (cs.takeWhile (· ≠ '+'), cs.dropWhile (· ≠ '+'))

/-- `micro_tz_part.rfind('-')` split: the prefix before the last `'-'` and
the suffix from it (inclusive). -/
def splitAtLastDash (cs : List Char) : List Char × List Char :=
  let r := cs.reverse
  (((r.dropWhile (· ≠ '-')).drop 1).reverse,
   '-' :: (r.takeWhile (· ≠ '-')).reverse)

/-- `iso_string.rsplit('.', 1)` for a string containing a `'.'`: the part
before the last dot and the part after it. -/
def rsplitDot (cs : List Char) : List Char × List Char :=
  let r := cs.reverse
  (((r.dropWhile (· ≠ '.')).drop 1).reverse, (r.takeWhile (· ≠ '.')).reverse)

/-- `str.zfill(6)`: left-pad with zeros to width 6. -/
def zfill6 (cs : List Char) : List Char :=
  List.replicate (6 - cs.length) '0' ++ cs

/-- `safe_iso_to_datetime` (`water_quality_api.py:59-102`): direct
`fromisoformat` parse with the timezone dropped; on failure, if the string
contains a dot, split off the part after the last dot, strip a recognized
timezone suffix from it (`Z`, from the first `'+'`, or from the last `'-'`
when a colon is also present), truncate the remaining digits to six and
left-`zfill` to six, re-attach the suffix, re-parse, and drop the
timezone; any failure yields `none`. -/
def safe_iso_to_datetime (cs : List Char) : Option NaiveDT :=
  match fromisoformat cs with
  | some p => some p.dt
  | none =>
    if cs.contains '.' then
      let basePair := rsplitDot cs
      let microTz := basePair.2
      let tzMicro : List Char × List Char :=
        if microTz.contains 'Z' then (['Z'], microTz.filter (· ≠ 'Z'))
        else if microTz.contains '+' then
          ((splitAtFirstPlus microTz).2, (splitAtFirstPlus microTz).1)
        else if microTz.contains '-' && microTz.contains ':' then
          ((splitAtLastDash microTz).2, (splitAtLastDash microTz).1)
        else ([], microTz)
      let cleanMicro := zfill6 (tzMicro.2.take 6)
      match fromisoformat (basePair.1 ++ '.' :: (cleanMicro ++ tzMicro.1)) with
      | some p => some p.dt
      | none => none
    else none

/-- The time-range portion of `build_mongo_query`
(`water_quality_api.py:110-121`): each present bound is parsed with
`safe_iso_to_datetime`; a failed parse is a client validation failure, and
the query is not executed. -/
def build_time_filter (startArg endArg : Option (List Char)) :
    Except String (Option NaiveDT × Option NaiveDT) := do
  let lo ← match startArg with
    | none => pure none
    | some s =>
        match safe_iso_to_datetime s with
        | none => throw ("Invalid \x27start\x27 date format.")
        | some dt => pure (some dt)
  let hi ← match endArg with
    | none => pure none
    | some s =>
        match safe_iso_to_datetime s with
        | none => throw ("Invalid \x27end\x27 date format.")
        | some dt => pure (some dt)
  pure (lo, hi)

/-! ### Concrete sample rows used by witnesses and counterexamples -/

/-- A complete row with the given temperature. -/
def rowC (t : ℚ) : RawRow := ⟨some 0, some 0, some 0, some t, some 1, some 1⟩

/-- A row that is null in `temperature` and complete elsewhere. -/
def rowNullTemp : RawRow := ⟨some 0, some 0, some 0, none, some 1, some 1⟩

/-- The projected document produced for `rowC t` under `field =
"temperature"`. -/
def tdoc (t : ℚ) : Doc :=
  [("timestamp", .dt 0), ("latitude", .num 0), ("longitude", .num 0),
   ("temperature", .num t)]

/-- The raw-row field selected by a valid `field` parameter. -/
def fieldOpt (f : String) (r : RawRow) : Option ℚ :=
  if f = "temperature" then r.temperature
  else if f = "salinity" then r.salinity
  else if f = "odo" then r.odo
  else none

/-! ### Helper lemmas -/

theorem clean_outliers_sublist (rows : List RawRow) :
    (clean_outliers rows).Sublist rows := by
  unfold clean_outliers
  split
  · exact List.Sublist.refl _
  · exact List.filter_sublist _

theorem clean_outliers_length_le (rows : List RawRow) :
    (clean_outliers rows).length ≤ rows.length :=
  (clean_outliers_sublist rows).length_le

theorem sortedRows_length_le (raw : List RawRow) :
    (sortedRows raw).length ≤ raw.length := by
  simpa [sortedRows, dropIncomplete, List.length_insertionSort] using
    List.length_filter_le complete raw

/-! ### C2 — the Store invariant -/

/-- C2: every Observation in the Store has all six fields present and
non-null, and the stored sequence is sorted non-decreasing by timestamp;
both facts are established by the build pipeline (required-field drop, then
stable timestamp sort, then the z-score cleaning filter) for every raw
input, and the pipeline is a pure function of the input — no query
operation mutates the store. -/
theorem cleaned_complete_sorted (raw : List RawRow) :
    ((cleaned raw).all complete = true) ∧
    (cleaned raw).Pairwise (fun a b => tsKey a ≤ tsKey b) := by
  have hsub : (cleaned raw).Sublist (sortedRows raw) := clean_outliers_sublist _
  constructor
  · rw [List.all_eq_true]
    intro r hr
    have h1 : r ∈ sortedRows raw := hsub.subset hr
    have h2 : r ∈ dropIncomplete raw := by
      simpa [sortedRows, List.mem_insertionSort] using h1
    exact (List.mem_filter.mp (by simpa [dropIncomplete] using h2)).2
  · have hp : (sortedRows raw).Pairwise tsLe :=
      List.sorted_insertionSort tsLe (dropIncomplete raw)
    exact hp.sublist hsub

/-! ### C3 — the cleaning report counters -/

/-- C3 amended: `original_rows` counts the rows after concatenation and
*before* the required-field drop; when the frame entering the z-score pass
is non-empty, `removed_outliers` is the number of rows dropped for missing
required fields plus the number removed by the z-score threshold, and
`remaining_rows` is the number of rows output by the pass; when that frame
is empty, the early return skips both assignments and the counters keep
their process-default `0`. -/
theorem report_counters_amended (raw : List RawRow) :
    reportOf raw =
      if (sortedRows raw).isEmpty then ⟨raw.length, 0, 0⟩
      else
        ⟨raw.length,
         (raw.length - (sortedRows raw).length) +
           ((sortedRows raw).length - (cleaned raw).length),
         (cleaned raw).length⟩ := by
  have h1 : (cleaned raw).length ≤ (sortedRows raw).length :=
    clean_outliers_length_le _
  have h2 : (sortedRows raw).length ≤ raw.length := sortedRows_length_le raw
  by_cases he : (sortedRows raw).isEmpty = true
  · simp [reportOf, he]
  · have he' : (sortedRows raw).isEmpty = false := by
      simpa using he
    have h3 : raw.length - (cleaned raw).length =
        (raw.length - (sortedRows raw).length) +
          ((sortedRows raw).length - (cleaned raw).length) := by omega
    simp [reportOf, he', h3]

/-- Evaluation of the changed counters on the C3 counterexample input. -/
theorem cleaned_eval_c3 : cleaned [rowNullTemp, rowC 5, rowC 5] = [rowC 5, rowC 5] := by
  have hsort : sortedRows [rowNullTemp, rowC 5, rowC 5] = [rowC 5, rowC 5] := by
    norm_num [sortedRows, dropIncomplete, complete, rowNullTemp, rowC, tsLe,
      tsKey, List.insertionSort, List.orderedInsert]
  have hv5 : sampleVar [(5 : ℚ), 5] = some 0 := by norm_num [sampleVar, mean]
  have hv1 : sampleVar [(1 : ℚ), 1] = some 0 := by norm_num [sampleVar, mean]
  have hflag : ∀ (v? : Option ℚ) (m : ℚ), colFlag v? m (some 0) = false := by
    intro v? m
    cases v? <;> simp [colFlag]
  have hT : List.filterMap RawRow.temperature [rowC 5, rowC 5] = [(5 : ℚ), 5] := rfl
  have hS : List.filterMap RawRow.salinity [rowC 5, rowC 5] = [(1 : ℚ), 1] := rfl
  have hO : List.filterMap RawRow.odo [rowC 5, rowC 5] = [(1 : ℚ), 1] := rfl
  rw [cleaned, hsort]
  simp [clean_outliers, hT, hS, hO, hv5, hv1, hflag]

/-- C3 counterexample: on a raw input with one incomplete row and two
identical complete rows, the report reads `original_rows = 3`,
`removed_outliers = 1`, `remaining_rows = 2`, while the z-score pass
received 2 rows and removed 0 of them: `original_rows` is captured before
the required-field drop, and `removed_outliers` therefore counts the
incomplete row, contradicting the claim that the counters describe the
z-score pass alone. -/
theorem report_counters_counterexample :
    reportOf [rowNullTemp, rowC 5, rowC 5] = ⟨3, 1, 2⟩ ∧
    (sortedRows [rowNullTemp, rowC 5, rowC 5]).length = 2 ∧
    (sortedRows [rowNullTemp, rowC 5, rowC 5]).length -
      (cleaned [rowNullTemp, rowC 5, rowC 5]).length = 0 := by
  have hsort : sortedRows [rowNullTemp, rowC 5, rowC 5] = [rowC 5, rowC 5] := by
    norm_num [sortedRows, dropIncomplete, complete, rowNullTemp, rowC, tsLe,
      tsKey, List.insertionSort, List.orderedInsert]
  refine ⟨?_, by rw [hsort]; rfl, by rw [hsort, cleaned_eval_c3]; rfl⟩
  simp only [reportOf, hsort, cleaned_eval_c3]
  rfl

/-! ### C4 — `count` versus `query` length -/

/-- C4 counterexample: over a store of 1001 rows and the trivial filter,
`count` is 1001 but `query(filter, skip=0, limit=count)` returns only 1000
rows because of the limit cap, so the claimed equality fails exactly in the
`count > 1000` case the claim includes. -/
theorem count_query_counterexample :
    countDocs (List.replicate 1001 (rowC 5)) (fun _ => true) = 1001 ∧
    (queryDocs (List.replicate 1001 (rowC 5)) (fun _ => true) 0
      (countDocs (List.replicate 1001 (rowC 5)) (fun _ => true))).length = 1000 := by
  have hc : countDocs (List.replicate 1001 (rowC 5)) (fun _ => true) = 1001 := by
    simp only [countDocs, List.filter_true, List.length_replicate]
  refine ⟨hc, ?_⟩
  rw [hc]
  simp only [queryDocs, List.drop_zero, List.length_take,
    List.length_insertionSort, List.filter_true, List.length_replicate]
  omega

/-- C4 amended: `count(filter)` equals the length of
`query(filter, skip=0, limit=count(filter))` whenever
`count(filter) ≤ 1000`; beyond that the query is capped at 1000 rows. -/
theorem count_query_agree (db : List RawRow) (p : RawRow → Bool)
    (h : countDocs db p ≤ 1000) :
    (queryDocs db p 0 (countDocs db p)).length = countDocs db p := by
  simp only [queryDocs, countDocs, List.drop_zero, List.length_take,
    List.length_insertionSort] at *
  omega

/-- Witness for `count_query_agree` at a one-row store. -/
theorem count_query_agree_witness :
    countDocs [rowC 5] (fun _ => true) ≤ 1000 ∧
    (queryDocs [rowC 5] (fun _ => true) 0
      (countDocs [rowC 5] (fun _ => true))).length =
      countDocs [rowC 5] (fun _ => true) :=
  ⟨by decide, count_query_agree [rowC 5] (fun _ => true) (by decide)⟩

/-! ### C5 — pagination concatenation -/

/-- C5 counterexample: with 1200 stored rows, the trivial filter and
`L = 600`, the concatenation `query(0,600) ++ query(600,600)` has 1200
elements while `query(0,1200)` is capped at 1000, so the two sequences are
not equal element for element. -/
theorem pagination_concat_counterexample :
    ¬ (queryDocs (List.replicate 1200 (rowC 5)) (fun _ => true) 0 600 ++
        queryDocs (List.replicate 1200 (rowC 5)) (fun _ => true) 600 600 =
       queryDocs (List.replicate 1200 (rowC 5)) (fun _ => true) 0 1200) := by
  intro h
  have hlen := congrArg List.length h
  simp only [queryDocs, List.length_append, List.drop_zero, List.length_take,
    List.length_drop, List.length_insertionSort, List.filter_true,
    List.length_replicate] at hlen
  omega

/-- C5 amended: for every filter and `L > 0`, the concatenation
`query(filter,0,L) ++ query(filter,L,L)`, truncated to the 1000-row cap,
equals `query(filter,0,2L)` element for element; without the truncation the
equality holds exactly when `2L ≤ 1000`. -/
theorem pagination_concat (db : List RawRow) (p : RawRow → Bool) (L : Nat)
    (hL : 0 < L) :
    (queryDocs db p 0 L ++ queryDocs db p L L).take 1000 =
      queryDocs db p 0 (2 * L) := by
  simp only [queryDocs, List.drop_zero]
  set s := (db.filter p).insertionSort tsLe with hs
  rcases le_or_lt L 1000 with h | h
  · rw [min_eq_left h, ← List.take_add, List.take_take]
    congr 1
    omega
  · have h1 : min L 1000 = 1000 := by omega
    have h2 : min (2 * L) 1000 = 1000 := by omega
    rw [h1, h2, List.take_append_eq_append_take, List.take_take]
    rcases le_or_lt 1000 s.length with hs' | hs'
    · have hlen : (s.take 1000).length = 1000 := by
        simp [List.length_take]
        omega
      rw [hlen]
      simp
    · have hdrop : s.drop L = [] := List.drop_eq_nil_of_le (by omega)
      rw [hdrop]
      simp

/-- Witness for `pagination_concat` at a two-row store and `L = 1`. -/
theorem pagination_concat_witness :
    (queryDocs [rowC 5, rowC 6] (fun _ => true) 0 1 ++
      queryDocs [rowC 5, rowC 6] (fun _ => true) 1 1).take 1000 =
    queryDocs [rowC 5, rowC 6] (fun _ => true) 0 (2 * 1) :=
  pagination_concat [rowC 5, rowC 6] (fun _ => true) 1 (by decide)

/-! ### C10 — pagination parameter validation and defaults -/

/-- C10: a `limit` or `skip` parameter parsing to a negative integer is
rejected with the 400 message before any query runs, and absent parameters
default to `limit = 100`, `skip = 0`. -/
theorem pagination_params (db : List RawRow) (p : RawRow → Bool) :
    (∀ l : Int, l < 0 → ∀ s : Option Int,
        get_observations db p (some l) s =
          .clientError ("Limit and skip must be non-negative.")) ∧
    (∀ s : Int, s < 0 → ∀ l : Option Int,
        get_observations db p l (some s) =
          .clientError ("Limit and skip must be non-negative.")) ∧
    get_observations db p none none =
      .ok (countDocs db p) (queryDocs db p 0 100) := by
  refine ⟨?_, ?_, ?_⟩
  · intro l hl s
    have hmin : min l 1000 < 0 := lt_of_le_of_lt (min_le_left _ _) hl
    simp [get_observations, hmin]
  · intro s hs l
    simp [get_observations, hs]
  · simp [get_observations]

/-- Witness for `pagination_params` at concrete inputs. -/
theorem pagination_params_witness :
    get_observations [] (fun _ => true) (some (-1)) none =
      .clientError ("Limit and skip must be non-negative.") ∧
    get_observations [] (fun _ => true) none (some (-2)) =
      .clientError ("Limit and skip must be non-negative.") ∧
    get_observations [] (fun _ => true) none none =
      .ok (countDocs [] (fun _ => true)) (queryDocs [] (fun _ => true) 0 100) :=
  ⟨(pagination_params [] (fun _ => true)).1 (-1) (by decide) none,
   (pagination_params [] (fun _ => true)).2.1 (-2) (by decide) none,
   (pagination_params [] (fun _ => true)).2.2⟩

/-! ### Structure lemmas for `find_outliers` -/

theorem flaggedIqr_subset {rows : List Doc} {f : String} {k : ℚ} :
    ∀ d ∈ flaggedIqr rows f k, d ∈ rows := by
  intro d hd
  unfold flaggedIqr at hd
  exact (List.mem_filter.mp hd).1

theorem flaggedZscore_subset {rows : List Doc} {f : String} {k : ℚ} :
    ∀ d ∈ flaggedZscore rows f k, d ∈ rows := by
  intro d hd
  simp only [flaggedZscore] at hd
  split at hd
  · exact absurd hd (List.not_mem_nil d)
  · split at hd
    · exact absurd hd (List.not_mem_nil d)
    · exact (List.mem_filter.mp hd).1

theorem mem_keptDocs {db : List RawRow} {f : String} {d : Doc}
    (hd : d ∈ keptDocs db f) : ∃ r ∈ db, d = projectDoc f (docOfRow r) := by
  have h1 : d ∈ projectedDocs db f := (List.mem_filter.mp hd).1
  rcases List.mem_map.mp h1 with ⟨r, hr, rfl⟩
  exact ⟨r, hr, rfl⟩

theorem keys_projectDoc (f : String) (hf : f ∈ numericFields) (r : RawRow) :
    (projectDoc f (docOfRow r)).map Prod.fst = projKeys f := by
  fin_cases hf <;> rfl

theorem getNum_projectDoc (f : String) (hf : f ∈ numericFields) (r : RawRow) :
    getNum (projectDoc f (docOfRow r)) f = fieldOpt f r := by
  fin_cases hf <;>
    · cases htemp : r.temperature <;> cases hsal : r.salinity <;>
        cases hodo : r.odo <;>
      simp [projectDoc, docOfRow, getNum, lookupVal, fieldOpt, projKeys,
        htemp, hsal, hodo]

theorem keptDocs_ne_nil {db : List RawRow} {f : String} (hf : f ∈ numericFields)
    (hex : ∃ r ∈ db, (fieldOpt f r).isSome) :
    (keptDocs db f).isEmpty = false := by
  rcases hex with ⟨r, hr, hsome⟩
  have hmem : projectDoc f (docOfRow r) ∈ keptDocs db f := by
    refine List.mem_filter.mpr ⟨List.mem_map.mpr ⟨r, hr, rfl⟩, ?_⟩
    rw [getNum_projectDoc f hf r]
    exact hsome
  exact List.isEmpty_eq_false.mpr (List.ne_nil_of_mem hmem)

/-! ### Concrete evaluation of an IQR outliers request -/

theorem quantile_q1_eval : quantile [1, 2, 3, 4, 100] (1/4) = 2 := by
  norm_num [quantile, List.insertionSort, List.orderedInsert, Rat.floor_def',
    Rat.num_ofNat, Rat.den_ofNat]

theorem quantile_q3_eval : quantile [1, 2, 3, 4, 100] (3/4) = 4 := by
  have h3 : ((3 : ℤ)).toNat = 3 := rfl
  norm_num [quantile, List.insertionSort, List.orderedInsert, Rat.floor_def',
    Rat.num_ofNat, Rat.den_ofNat, h3]

theorem flaggedIqr_eval :
    flaggedIqr [tdoc 1, tdoc 2, tdoc 3, tdoc 4, tdoc 100] ("temperature") 0 =
      [tdoc 1, tdoc 100] := by
  have hvals : List.filterMap (fun d => getNum d ("temperature"))
      [tdoc 1, tdoc 2, tdoc 3, tdoc 4, tdoc 100] = [1, 2, 3, 4, 100] := rfl
  have hget : ∀ t : ℚ, getNum (tdoc t) ("temperature") = some t := fun t => rfl
  norm_num [flaggedIqr, hvals, hget, quantile_q1_eval, quantile_q3_eval,
    List.filter]

/-- The `/api/outliers` response for `field=temperature`, `method=iqr`,
`k=0` over the five-row store with temperatures `1, 2, 3, 4, 100`:
`Q1 = 2`, `Q3 = 4`, and the rows with values `1` and `100` are flagged
(the spec's own boundary example). -/
theorem find_outliers_iqr_eval :
    find_outliers [rowC 1, rowC 2, rowC 3, rowC 4, rowC 100]
        (some ("temperature")) (some ("iqr")) (some 0) =
      .ok [tdoc 1, tdoc 100] (some 2) := by
  have hkept : keptDocs [rowC 1, rowC 2, rowC 3, rowC 4, rowC 100]
      ("temperature") = [tdoc 1, tdoc 2, tdoc 3, tdoc 4, tdoc 100] := rfl
  simp only [find_outliers, hkept]
  norm_num [numericFields]
  rw [if_neg (show ¬ ("iqr" : String) = "zscore" by decide)]
  simp [flaggedIqr_eval]

/-! ### C1 — outlier responses carry a projection, not all six fields -/

/-- C1 counterexample: a flagged row of a successful IQR outliers request
carries only `timestamp`, `latitude`, `longitude` and the target field; its
`salinity` and `odo` keys are absent, so the response does not carry all
six stored Observation fields. -/
theorem outlier_projection_counterexample :
    find_outliers [rowC 1, rowC 2, rowC 3, rowC 4, rowC 100]
        (some ("temperature")) (some ("iqr")) (some 0) =
      .ok [tdoc 1, tdoc 100] (some 2) ∧
    lookupVal (tdoc 1) ("salinity") = none ∧
    lookupVal (tdoc 1) ("odo") = none :=
  ⟨find_outliers_iqr_eval, rfl, rfl⟩

/-- C1 amended: for every outliers request with a valid field, each flagged
row in a successful response carries exactly the four projected fields
`timestamp`, `latitude`, `longitude` and the target field — the projection
applied by the endpoint's `find`, not all six stored fields. -/
theorem outlier_rows_projected (db : List RawRow) (f : String)
    (hf : f ∈ numericFields) (methodArg : Option String) (kArg : Option ℚ)
    (outs : List Doc) (c : Option Nat)
    (h : find_outliers db (some f) methodArg kArg = .ok outs c) :
    ∀ d ∈ outs, d.map Prod.fst = projKeys f := by
  intro d hd
  have hkept : d ∈ keptDocs db f := by
    simp only [find_outliers] at h
    rw [if_pos hf] at h
    split at h
    · exact absurd h (by simp)
    · split at h
      · injection h with h1 h2
        subst h1
        exact absurd hd (List.not_mem_nil d)
      · split at h
        · injection h with h1 h2
          subst h1
          exact flaggedZscore_subset d hd
        · split at h
          · injection h with h1 h2
            subst h1
            exact flaggedIqr_subset d hd
          · exact absurd h (by simp)
  rcases mem_keptDocs hkept with ⟨r, hr, rfl⟩
  exact keys_projectDoc f hf r

/-- Witness for `outlier_rows_projected` at the concrete IQR request. -/
theorem outlier_rows_projected_witness :
    (tdoc 1).map Prod.fst = projKeys ("temperature") :=
  outlier_rows_projected [rowC 1, rowC 2, rowC 3, rowC 4, rowC 100]
    ("temperature") (by decide) (some ("iqr")) (some 0) [tdoc 1, tdoc 100]
    (some 2) find_outliers_iqr_eval (tdoc 1) (List.mem_cons_self _ _)

/-! ### C6 — invalid method validation -/

/-- C6 counterexample: with an invalid method tag `bogus` but a dataset
whose target field has no non-null values, the endpoint returns the
success payload `{"outliers": []}` (with no count) instead of a validation
failure: the empty-frame early return precedes method validation. -/
theorem invalid_method_counterexample :
    find_outliers [rowNullTemp] (some ("temperature")) (some ("bogus")) none =
      .ok [] none := by
  decide

/-- C6 amended: a method tag that is neither `iqr` nor `zscore` yields the
descriptive client validation failure whenever the target field has at
least one non-null value; when it has none, the request instead succeeds
with an empty outliers list, the method never being validated. -/
theorem invalid_method_rejected (db : List RawRow) (f : String)
    (hf : f ∈ numericFields) (m : String) (hm1 : m ≠ "iqr")
    (hm2 : m ≠ "zscore") (kArg : Option ℚ)
    (hex : ∃ r ∈ db, (fieldOpt f r).isSome) :
    find_outliers db (some f) (some m) kArg =
      .clientError ("Invalid outlier method. Use \x27iqr\x27 or \x27zscore\x27.") := by
  have hdb : db.isEmpty = false := by
    rcases hex with ⟨r, hr, _⟩
    exact List.isEmpty_eq_false.mpr (List.ne_nil_of_mem hr)
  have hrows := keptDocs_ne_nil hf hex
  simp [find_outliers, hf, hdb, hrows, hm1, hm2]

/-- Witness for `invalid_method_rejected` at a one-row store. -/
theorem invalid_method_rejected_witness :
    find_outliers [rowC 5] (some ("temperature")) (some ("bogus")) none =
      .clientError ("Invalid outlier method. Use \x27iqr\x27 or \x27zscore\x27.") :=
  invalid_method_rejected [rowC 5] ("temperature") (by decide) ("bogus")
    (by decide) (by decide) none
    ⟨rowC 5, List.mem_singleton.mpr rfl, by rfl⟩

/-! ### C7 — successful responses and the count field -/

/-- C7 counterexample: a valid IQR request over a dataset whose target
field has no non-null values succeeds with `{"outliers": []}` and no
`count` key at all (modelled as `none`), not `count = 0`. -/
theorem outliers_count_counterexample :
    find_outliers [rowNullTemp] (some ("temperature")) (some ("iqr")) none =
      .ok [] none := by
  decide

/-- C7 amended: every successful outliers response produced past the
empty-frame early return contains both the flagged list and a count equal
to its length; the early return for a field with zero non-null values
carries only the empty outliers list and no count. -/
theorem outliers_count_present (db : List RawRow) (f : String)
    (hf : f ∈ numericFields) (m : String) (hm : m = "iqr" ∨ m = "zscore")
    (kArg : Option ℚ) (hex : ∃ r ∈ db, (fieldOpt f r).isSome) :
    ∃ outs, find_outliers db (some f) (some m) kArg =
      .ok outs (some outs.length) := by
  have hdb : db.isEmpty = false := by
    rcases hex with ⟨r, hr, _⟩
    exact List.isEmpty_eq_false.mpr (List.ne_nil_of_mem hr)
  have hrows := keptDocs_ne_nil hf hex
  rcases hm with rfl | rfl
  · exact ⟨flaggedIqr (keptDocs db f) f (kArg.getD (3/2)),
      by simp [find_outliers, hf, hdb, hrows]⟩
  · exact ⟨flaggedZscore (keptDocs db f) f (kArg.getD 3),
      by simp [find_outliers, hf, hdb, hrows]⟩

/-- Witness for `outliers_count_present` at a one-row store. -/
theorem outliers_count_present_witness :
    ∃ outs, find_outliers [rowC 5] (some ("temperature")) (some ("iqr")) none =
      .ok outs (some outs.length) :=
  outliers_count_present [rowC 5] ("temperature") (by decide) ("iqr")
    (Or.inl rfl) none ⟨rowC 5, List.mem_singleton.mpr rfl, by rfl⟩

/-! ### C8 — z-score with zero standard deviation -/

/-- C8: for every z-score outliers request over a field whose non-null
values have sample variance exactly zero (hence standard deviation exactly
zero), no row is flagged for any factor `k` — the response is
`{"outliers": [], "count": 0}` — and the `std != 0` guard means the
division by the standard deviation is never performed (the flagged list is
produced without entering the division branch). -/
theorem zscore_zero_std (db : List RawRow) (f : String)
    (hf : f ∈ numericFields) (kArg : Option ℚ)
    (hvar : sampleVar (fieldVals db f) = some 0) :
    find_outliers db (some f) (some ("zscore")) kArg = .ok [] (some 0) := by
  have hlen : 2 ≤ (fieldVals db f).length := by
    by_contra hc
    rw [sampleVar, if_pos (by omega)] at hvar
    cases hvar
  have hkd : (fieldVals db f).length ≤ (keptDocs db f).length :=
    List.length_filterMap_le _ _
  have hrows : (keptDocs db f).isEmpty = false := by
    rw [List.isEmpty_eq_false]
    intro hnil
    rw [hnil] at hkd
    simp only [List.length_nil, Nat.le_zero] at hkd
    omega
  have hdb : db.isEmpty = false := by
    have h1 : (keptDocs db f).length ≤ (projectedDocs db f).length :=
      List.length_filter_le _ _
    rw [List.isEmpty_eq_false]
    intro hnil
    have h2 : (projectedDocs db f).length = 0 := by
      rw [projectedDocs, hnil]
      rfl
    omega
  have hvar' : sampleVar (List.filterMap (fun d => getNum d f) (keptDocs db f))
      = some 0 := hvar
  have hfz : flaggedZscore (keptDocs db f) f (kArg.getD 3) = [] := by
    simp only [flaggedZscore, hvar']
    simp
  simp [find_outliers, hf, hdb, hrows, hfz]

/-- Witness for `zscore_zero_std`: four identical values `5` and even a
negative factor `k = -1` flag nothing. -/
theorem zscore_zero_std_witness :
    sampleVar (fieldVals [rowC 5, rowC 5, rowC 5, rowC 5] ("temperature")) =
      some 0 ∧
    find_outliers [rowC 5, rowC 5, rowC 5, rowC 5] (some ("temperature"))
      (some ("zscore")) (some (-1)) = .ok [] (some 0) := by
  have hvals : fieldVals [rowC 5, rowC 5, rowC 5, rowC 5] ("temperature") =
      [5, 5, 5, 5] := rfl
  have hvar : sampleVar (fieldVals [rowC 5, rowC 5, rowC 5, rowC 5]
      ("temperature")) = some 0 := by
    rw [hvals]
    norm_num [sampleVar, mean]
  exact ⟨hvar, zscore_zero_std _ _ (by decide) _ hvar⟩

/-! ### C9 — timestamp bound parsing -/

theorem takeWhile_append_all {p : Char → Bool} {xs ys : List Char}
    (h : ∀ c ∈ xs, p c) :
    (xs ++ ys).takeWhile p = xs ++ ys.takeWhile p := by
  induction xs with
  | nil => simp
  | cons a l ih =>
      have ha : p a := h a (List.mem_cons_self a l)
      simp only [List.cons_append, List.takeWhile_cons, ha, ite_true]
      rw [ih (fun c hc => h c (List.mem_cons_of_mem a hc))]

theorem dropWhile_append_all {p : Char → Bool} {xs ys : List Char}
    (h : ∀ c ∈ xs, p c) :
    (xs ++ ys).dropWhile p = ys.dropWhile p := by
  induction xs with
  | nil => simp
  | cons a l ih =>
      have ha : p a := h a (List.mem_cons_self a l)
      simp only [List.cons_append, List.dropWhile_cons, ha, ite_true]
      exact ih (fun c hc => h c (List.mem_cons_of_mem a hc))

/-- A recognized timezone suffix starts with a non-digit character
(`Z`, `+` or `-`). -/
theorem parseOffset_head {tz : List Char} {o : Int}
    (h : parseOffset tz = some (some o)) :
    ∃ c rest, tz = c :: rest ∧ c.isDigit = false := by
  match tz with
  | [] => simp [parseOffset] at h
  | c :: rest =>
      refine ⟨c, rest, rfl, ?_⟩
      by_cases hz : c = 'Z'
      · subst hz
        decide
      · by_cases hpm : (c = '+' || c = '-') = true
        · rcases Bool.or_eq_true_iff.mp hpm with h1 | h1 <;>
            · rw [decide_eq_true_eq] at h1
              subst h1
              decide
        · exfalso
          simp [parseOffset, hz, hpm] at h

/-- `fromisoformat` on the concrete date-time stem, with the remainder of
the string (fraction and timezone suffix) left symbolic. -/
theorem fromiso_stem (rest2 : List Char) :
    fromisoformat (("2022-01-01T00:00:00").data ++ rest2) =
      match parseFracPart rest2 with
      | none => none
      | some (us, rest3) =>
          match parseOffset rest3 with
          | none => none
          | some off => some ⟨⟨2022, 1, 1, 0, 0, 0, us⟩, off⟩ := rfl

/-- The fractional part of a bound: any non-empty run of digits is
consumed and converted by `microOfDigits` (first six digits, scaled), and
the remainder is handed to the timezone parser unchanged. -/
theorem parseFracPart_eval {ds tail : List Char} (hne : ds ≠ [])
    (hdig : ∀ c ∈ ds, c.isDigit)
    (htw : tail.takeWhile Char.isDigit = [])
    (hdw : tail.dropWhile Char.isDigit = tail) :
    parseFracPart ('.' :: (ds ++ tail)) = some (microOfDigits ds, tail) := by
  have hempty : ds.isEmpty = false := by
    cases ds
    · exact absurd rfl hne
    · rfl
  simp only [parseFracPart, takeWhile_append_all hdig, htw,
    dropWhile_append_all hdig, hdw, List.append_nil, hempty]
  simp

theorem safe_iso_frac_eval (ds : List Char) (hne : ds ≠ [])
    (hdig : ∀ c ∈ ds, c.isDigit) :
    safe_iso_to_datetime (("2022-01-01T00:00:00.").data ++ ds) =
      some ⟨2022, 1, 1, 0, 0, 0, microOfDigits ds⟩ := by
  have hsplit : ("2022-01-01T00:00:00.").data ++ ds =
      ("2022-01-01T00:00:00").data ++ ('.' :: (ds ++ [])) := by
    simp
  have hfrom : fromisoformat
      (("2022-01-01T00:00:00").data ++ ('.' :: (ds ++ []))) =
      some ⟨⟨2022, 1, 1, 0, 0, 0, microOfDigits ds⟩, none⟩ := by
    rw [fromiso_stem, @parseFracPart_eval ds [] hne hdig rfl rfl]
    rfl
  rw [hsplit]
  simp only [safe_iso_to_datetime, hfrom]

theorem safe_iso_frac_tz_eval (ds : List Char) (hne : ds ≠ [])
    (hdig : ∀ c ∈ ds, c.isDigit) (tz : List Char)
    (htz : ∃ o : Int, parseOffset tz = some (some o)) :
    safe_iso_to_datetime (("2022-01-01T00:00:00.").data ++ ds ++ tz) =
      some ⟨2022, 1, 1, 0, 0, 0, microOfDigits ds⟩ := by
  obtain ⟨o, ho⟩ := htz
  obtain ⟨c, rest, rfl, hcd⟩ := parseOffset_head ho
  have htw : (c :: rest).takeWhile Char.isDigit = [] := by
    simp [List.takeWhile_cons, hcd]
  have hdw : (c :: rest).dropWhile Char.isDigit = c :: rest := by
    simp [List.dropWhile_cons, hcd]
  have hsplit : ("2022-01-01T00:00:00.").data ++ ds ++ (c :: rest) =
      ("2022-01-01T00:00:00").data ++ ('.' :: (ds ++ (c :: rest))) := by
    simp
  have hfrom : fromisoformat
      (("2022-01-01T00:00:00").data ++ ('.' :: (ds ++ (c :: rest)))) =
      some ⟨⟨2022, 1, 1, 0, 0, 0, microOfDigits ds⟩, some o⟩ := by
    rw [fromiso_stem, parseFracPart_eval hne hdig htw hdw]
    simp [ho]
  rw [hsplit]
  simp only [safe_iso_to_datetime, hfrom]

/-- C9: for timestamp filter bounds, (i) any non-empty fractional-seconds
digit run is accepted, truncated to six digits — zero-scaled when fewer
remain — into the microsecond component (`microOfDigits`), (ii) any
recognized timezone offset or UTC marker (`Z`, `±HH`, `±HHMM`, `±HH:MM`)
is recognized and then discarded, the parse result being the same naive
instant as without the suffix (the result type `NaiveDT` carries no
timezone), and (iii) the spec's example bound
`"2022-01-01T00:00:00.1234567"` is accepted and parses — also through
`build_mongo_query` — to the naive instant `2022-01-01T00:00:00.123456`. -/
theorem timestamp_bound_parsing :
    (∀ ds : List Char, ds ≠ [] → (∀ c ∈ ds, c.isDigit) →
       safe_iso_to_datetime (("2022-01-01T00:00:00.").data ++ ds) =
         some ⟨2022, 1, 1, 0, 0, 0, microOfDigits ds⟩) ∧
    (∀ ds : List Char, ds ≠ [] → (∀ c ∈ ds, c.isDigit) →
       ∀ tz : List Char, (∃ o : Int, parseOffset tz = some (some o)) →
       safe_iso_to_datetime (("2022-01-01T00:00:00.").data ++ ds ++ tz) =
         some ⟨2022, 1, 1, 0, 0, 0, microOfDigits ds⟩) ∧
    safe_iso_to_datetime (("2022-01-01T00:00:00.1234567").data) =
      some ⟨2022, 1, 1, 0, 0, 0, 123456⟩ ∧
    build_time_filter (some (("2022-01-01T00:00:00.1234567").data)) none =
      .ok (some ⟨2022, 1, 1, 0, 0, 0, 123456⟩, none) :=
  ⟨safe_iso_frac_eval, safe_iso_frac_tz_eval, by decide, rfl⟩

/-- Witness for `timestamp_bound_parsing`: a seven-digit fraction with a
`+05:30` offset parses to the truncated naive instant. -/
theorem timestamp_bound_parsing_witness :
    safe_iso_to_datetime
        (("2022-01-01T00:00:00.").data ++ ("1234567").data ++ ("+05:30").data) =
      some ⟨2022, 1, 1, 0, 0, 0, microOfDigits (("1234567").data)⟩ :=
  timestamp_bound_parsing.2.1 (("1234567").data) (by decide) (by decide)
    (("+05:30").data) ⟨330, by decide⟩

end WaterQuality
